import Mathlib

/-!
Verification development for the `hops_dresden` fragment:
`hops/homps/tensormethod_parameters.py` and `hops/homps/operators.py`.

Python values reaching this fragment are modelled shallowly:
integers as `ℤ`, floats as `ℚ` (only comparisons with zero matter here),
raised exceptions as an `Except` error carrying the exception class and
message.  Keyword-argument dictionaries are modelled as association lists
with dictionary lookup semantics.
-/

/-- A Python numeric value as passed through `**kwargs`: either an `int`
or a `float`. -/
inductive PyVal where
  | int (z : ℤ)
  | float (q : ℚ)
deriving DecidableEq

/-- The exception classes raised by this fragment.  `typeError` covers both
CPython keyword-binding failures and beartype hint violations (beartype
violation exceptions subclass `TypeError`); the message texts of
`typeError` and `attributeError` are abbreviated, the `valueError` and
`notImplementedError` messages are the exact strings from the source. -/
inductive PyError where
  | valueError (msg : String)
  | typeError (msg : String)
  | notImplementedError (msg : String)
  | attributeError (msg : String)
deriving DecidableEq

/-- A `**kwargs` dictionary: an association list of keyword name and value
(dictionary keys are unique; lookups take the first binding). -/
abbrev Kwargs := List (String × PyVal)

/-- Dictionary lookup in a `Kwargs`. -/
def getKw (kw : Kwargs) (name : String) : Option PyVal :=
  (kw.find? (fun p => p.1 == name)).map (fun p => p.2)

/-- Binding of one keyword argument annotated `int` (CPython binding plus
the beartype hint check: a missing keyword or a non-`int` value raises a
`TypeError`). -/
def bindIntArg (kw : Kwargs) (name : String) : Except PyError ℤ :=
  match getKw kw name with
  | none => .error (.typeError ("missing required argument " ++ name))
  | some (.int z) => .ok z
  | some (.float _) => .error (.typeError ("argument " ++ name ++ " violates type hint int"))

/-- Binding of one keyword argument annotated `float` (beartype with its
default configuration does not admit an `int` where a `float` is hinted). -/
def bindFloatArg (kw : Kwargs) (name : String) : Except PyError ℚ :=
  match getKw kw name with
  | none => .error (.typeError ("missing required argument " ++ name))
  | some (.float q) => .ok q
  | some (.int _) => .error (.typeError ("argument " ++ name ++ " violates type hint float"))

/-- `positivity_test` from `tensormethod_parameters.py`: raises a
`ValueError` whose message is the custom name followed by
`" must be positive!"` when the value is not positive. -/
def positivity_test (value : ℚ) (custom_name : String) : Except PyError Unit :=
  if value ≤ 0 then .error (.valueError (custom_name ++ " must be positive!"))
  else .ok ()

/-- The record of `TDVP1SiteParameters` (slots `numiter_lanczos`,
`max_bond_dimension`). -/
structure TDVP1SiteParameters where
  numiter_lanczos : ℤ
  max_bond_dimension : ℤ
deriving DecidableEq

/-- `TDVP1SiteParameters.__slots__` from the source. -/
def TDVP1SiteParameters.slots : List String :=
  ["numiter_lanczos", "max_bond_dimension"]

/-- The body of `TDVP1SiteParameters.__init__`: positivity tests in
parameter order, then the field assignments. -/
def TDVP1SiteParameters.init (numiter_lanczos max_bond_dimension : ℤ) :
    Except PyError TDVP1SiteParameters := do
  positivity_test numiter_lanczos "number of Lanczos iterations"
  positivity_test max_bond_dimension "maximum bond dimension"
  pure ⟨numiter_lanczos, max_bond_dimension⟩

/-- The record of `TDVP2SiteParameters` (slots `numiter_lanczos`,
`max_bond_dimension`, `relative_svd_tolerance`). -/
structure TDVP2SiteParameters where
  numiter_lanczos : ℤ
  max_bond_dimension : ℤ
  relative_svd_tolerance : ℚ
deriving DecidableEq

/-- `TDVP2SiteParameters.__slots__` from the source. -/
def TDVP2SiteParameters.slots : List String :=
  ["numiter_lanczos", "max_bond_dimension", "relative_svd_tolerance"]

/-- The body of `TDVP2SiteParameters.__init__`. -/
def TDVP2SiteParameters.init (numiter_lanczos max_bond_dimension : ℤ)
    (relative_svd_tolerance : ℚ) : Except PyError TDVP2SiteParameters := do
  positivity_test numiter_lanczos "number of Lanczos iterations"
  positivity_test max_bond_dimension "maximum bond dimension"
  positivity_test relative_svd_tolerance "relative SVD tolerance"
  pure ⟨numiter_lanczos, max_bond_dimension, relative_svd_tolerance⟩

/-- The record of `TEBDParameters` (slots `max_bond_dimension`,
`svd_relative_tolerance`). -/
structure TEBDParameters where
  max_bond_dimension : ℤ
  svd_relative_tolerance : ℚ
deriving DecidableEq

/-- `TEBDParameters.__slots__` from the source. -/
def TEBDParameters.slots : List String :=
  ["max_bond_dimension", "svd_relative_tolerance"]

/-- The body of `TEBDParameters.__init__`. -/
def TEBDParameters.init (max_bond_dimension : ℤ) (svd_relative_tolerance : ℚ) :
    Except PyError TEBDParameters := do
  positivity_test max_bond_dimension "maximum bond dimension"
  positivity_test svd_relative_tolerance "SVD relative tolerance"
  pure ⟨max_bond_dimension, svd_relative_tolerance⟩

/-- Calling `TDVP1SiteParameters(**kw)`: CPython rejects unexpected
keywords, each declared keyword is bound and type-checked, then
`__init__` runs. -/
def TDVP1SiteParameters.call (kw : Kwargs) : Except PyError TDVP1SiteParameters :=
  match kw.find? (fun q => !(q.1 == "numiter_lanczos" || q.1 == "max_bond_dimension")) with
  | some q => .error (.typeError ("unexpected keyword argument " ++ q.1))
  | none =>
    match bindIntArg kw "numiter_lanczos" with
    | .error e => .error e
    | .ok n =>
      match bindIntArg kw "max_bond_dimension" with
      | .error e => .error e
      | .ok m => TDVP1SiteParameters.init n m

/-- Calling `TDVP2SiteParameters(**kw)`. -/
def TDVP2SiteParameters.call (kw : Kwargs) : Except PyError TDVP2SiteParameters :=
  match kw.find? (fun q =>
      !(q.1 == "numiter_lanczos" || q.1 == "max_bond_dimension" ||
        q.1 == "relative_svd_tolerance")) with
  | some q => .error (.typeError ("unexpected keyword argument " ++ q.1))
  | none =>
    match bindIntArg kw "numiter_lanczos" with
    | .error e => .error e
    | .ok n =>
      match bindIntArg kw "max_bond_dimension" with
      | .error e => .error e
      | .ok m =>
        match bindFloatArg kw "relative_svd_tolerance" with
        | .error e => .error e
        | .ok t => TDVP2SiteParameters.init n m t

/-- Calling `TEBDParameters(**kw)`. -/
def TEBDParameters.call (kw : Kwargs) : Except PyError TEBDParameters :=
  match kw.find? (fun q => !(q.1 == "max_bond_dimension" || q.1 == "svd_relative_tolerance")) with
  | some q => .error (.typeError ("unexpected keyword argument " ++ q.1))
  | none =>
    match bindIntArg kw "max_bond_dimension" with
    | .error e => .error e
    | .ok m =>
      match bindFloatArg kw "svd_relative_tolerance" with
      | .error e => .error e
      | .ok t => TEBDParameters.init m t

/-- The four members of the `MPSIntegrationMode` enumeration. -/
inductive MPSIntegrationMode where
  | TDVP1SITE
  | TDVP2SITE
  | TEBD
  | RUNGEKUTTA
deriving DecidableEq

/-- The `value` of each `MPSIntegrationMode` member. -/
def MPSIntegrationMode.value : MPSIntegrationMode → String
  | .TDVP1SITE => "TDVP1"
  | .TDVP2SITE => "TDVP2"
  | .TEBD => "TEBD"
  | .RUNGEKUTTA => "RK"

/-- A value supplied as the `mode` argument of `generate_parameters`
(which is not runtime type-checked): either an enumeration member, or any
other Python value, carried by its display string as interpolated into the
`f"Invalid mode {mode}."` message. -/
inductive ModeArg where
  | member (m : MPSIntegrationMode)
  | other (reprStr : String)
deriving DecidableEq

/-- The records a successful `generate_parameters` call can return. -/
inductive GeneratedParams where
  | tdvp1 (p : TDVP1SiteParameters)
  | tdvp2 (p : TDVP2SiteParameters)
  | tebd (p : TEBDParameters)
deriving DecidableEq

/-- `generate_parameters` from the source: the `if`/`elif` chain over the
mode, dispatching `**kwargs` to the matching constructor, raising
`NotImplementedError` for `RUNGEKUTTA` and `ValueError` for anything that
is no enumeration member. -/
def generate_parameters (mode : ModeArg) (kw : Kwargs) : Except PyError GeneratedParams :=
  match mode with
  | .member .TDVP1SITE => (TDVP1SiteParameters.call kw).map .tdvp1
  | .member .TDVP2SITE => (TDVP2SiteParameters.call kw).map .tdvp2
  | .member .TEBD => (TEBDParameters.call kw).map .tebd
  | .member .RUNGEKUTTA =>
      .error (.notImplementedError "Runge-Kutta integration is not yet implemented.")
  | .other r => .error (.valueError ("Invalid mode " ++ r ++ "."))

/-!
## `hops/homps/operators.py`

The matrices are built over `ℝ` (`np.sqrt` modelled exactly as the real
square root).  The fill loop `for i in range(dimension - 1)` writes
`creation[i, i + 1] = sqrt(i + 1)` and `annihilation[i + 1, i] = sqrt(i + 1)`;
over indices of `Fin d` this is exactly the entry functions below.
`np.zeros` raises a `ValueError` for a negative dimension and returns an
empty `0 × 0` array for dimension `0`.
-/

/-- The `creation` matrix filled by the loop of
`creation_annihilation_operator`. -/
noncomputable def creation_matrix (d : ℕ) : Matrix (Fin d) (Fin d) ℝ :=
  Matrix.of fun i j => if (j : ℕ) = (i : ℕ) + 1 then Real.sqrt ((i : ℕ) + 1) else 0

/-- The `annihilation` matrix filled by the loop of
`creation_annihilation_operator`. -/
noncomputable def annihilation_matrix (d : ℕ) : Matrix (Fin d) (Fin d) ℝ :=
  Matrix.of fun i j => if (i : ℕ) = (j : ℕ) + 1 then Real.sqrt ((j : ℕ) + 1) else 0

/-- `creation_annihilation_operator(dimension)`: `np.zeros((d, d))` rejects
a negative `d` with a `ValueError`; otherwise the two filled matrices are
returned. -/
noncomputable def creation_annihilation_operator (d : ℤ) :
    Except PyError (Matrix (Fin d.toNat) (Fin d.toNat) ℝ × Matrix (Fin d.toNat) (Fin d.toNat) ℝ) :=
  if d < 0 then .error (.valueError "negative dimensions are not allowed")
  else .ok (creation_matrix d.toNat, annihilation_matrix d.toNat)

/-- `number_operator(dimension)`: the diagonal matrix with diagonal
`0, 1, …, dimension - 1`. -/
def number_operator (d : ℕ) : Matrix (Fin d) (Fin d) ℝ :=
  Matrix.diagonal fun i => ((i : ℕ) : ℝ)

/-- `sigma_x` from `pauli_operators`. -/
def sigma_x : Matrix (Fin 2) (Fin 2) ℂ := !![0, 1; 1, 0]

/-- `sigma_y` from `pauli_operators`. -/
def sigma_y : Matrix (Fin 2) (Fin 2) ℂ := !![0, -Complex.I; Complex.I, 0]

/-- `sigma_z` from `pauli_operators`. -/
def sigma_z : Matrix (Fin 2) (Fin 2) ℂ := !![1, 0; 0, -1]

/-- `pauli_operators()`: the fixed triple `(sigma_x, sigma_y, sigma_z)`;
a pure function of no arguments (the source reads no global state), so
every invocation returns the same triple. -/
def pauli_operators :
    Matrix (Fin 2) (Fin 2) ℂ × Matrix (Fin 2) (Fin 2) ℂ × Matrix (Fin 2) (Fin 2) ℂ :=
  (sigma_x, sigma_y, sigma_z)

/-!
## Value semantics and sealing of the records

`bf.ABCParameter` comes from the external `binfootprint` dependency; its
equality/hash behaviour is modelled from the spec.
-/

/-- Modelled from the spec: the value-based key the external
`binfootprint.ABCParameter` base derives from the slot field values of
`TDVP1SiteParameters`, so that equal field values give equal hashes. -/
def TDVP1SiteParameters.bfKey (p : TDVP1SiteParameters) : ℤ × ℤ :=
  (p.numiter_lanczos, p.max_bond_dimension)

/-- Modelled from the spec: the value-based key of `TDVP2SiteParameters`. -/
def TDVP2SiteParameters.bfKey (p : TDVP2SiteParameters) : ℤ × ℤ × ℚ :=
  (p.numiter_lanczos, p.max_bond_dimension, p.relative_svd_tolerance)

/-- Modelled from the spec: the value-based key of `TEBDParameters`. -/
def TEBDParameters.bfKey (p : TEBDParameters) : ℤ × ℚ :=
  (p.max_bond_dimension, p.svd_relative_tolerance)

/-- Whether `object.__setattr__` on a `TDVP1SiteParameters` instance
succeeds for an attribute name: Python `__slots__` semantics (the slot list
is the one of the source; per the spec the whole class is sealed, so names
outside the slots raise an `AttributeError`). -/
def TDVP1SiteParameters.setattr (name : String) : Except PyError Unit :=
  if TDVP1SiteParameters.slots.contains name then .ok ()
  else .error (.attributeError ("TDVP1SiteParameters object has no attribute " ++ name))

/-- `__setattr__` admissibility for `TDVP2SiteParameters`, as for
`TDVP1SiteParameters.setattr`. -/
def TDVP2SiteParameters.setattr (name : String) : Except PyError Unit :=
  if TDVP2SiteParameters.slots.contains name then .ok ()
  else .error (.attributeError ("TDVP2SiteParameters object has no attribute " ++ name))

/-- `__setattr__` admissibility for `TEBDParameters`, as for
`TDVP1SiteParameters.setattr`. -/
def TEBDParameters.setattr (name : String) : Except PyError Unit :=
  if TEBDParameters.slots.contains name then .ok ()
  else .error (.attributeError ("TEBDParameters object has no attribute " ++ name))

/-!
## `HIParamsWTensors`
-/

/-- Modelled from the spec: the base hierarchy-integrator parameter
container `HIParams` (repository module `hops.core.hierarchy_parameters`,
not part of the provided sources): an opaque validated payload of base
fields with value equality. -/
structure HIParams where
  base_fields : List PyVal
deriving DecidableEq

/-- A Python value supplied for the `TensP` field: either a
`bf.ABCParameter` instance (one of the generated records) or any other
value, carried by its display string. -/
inductive TensPArg where
  | param (p : GeneratedParams)
  | nonparam (reprStr : String)
deriving DecidableEq

/-- The record of `HIParamsWTensors`: the base container extended by the
single extra slot `TensP`. -/
structure HIParamsWTensors extends HIParams where
  TensP : GeneratedParams
deriving DecidableEq

/-- `HIParamsWTensors.__slots__` from the source. -/
def HIParamsWTensors.slots : List String := ["TensP"]

/-- Constructing `HIParamsWTensors(base fields, TensP)`: the
dataclass-generated `__init__` under `@beartype` rejects a `TensP` value
that is not a `bf.ABCParameter` with a `TypeError` (beartype violation). -/
def HIParamsWTensors.init (base : HIParams) (tensP : TensPArg) :
    Except PyError HIParamsWTensors :=
  match tensP with
  | .param p => .ok ⟨base, p⟩
  | .nonparam r =>
      .error (.typeError ("argument TensP violates type hint ABCParameter: " ++ r))

/-- `hash()` on a `HIParamsWTensors` instance.  Python dataclass semantics:
`@dataclass` with the defaults `eq=True, frozen=False` (as in the source)
sets the generated class attribute `__hash__` to `None`, so the instances
are unhashable and `hash()` raises a `TypeError`. -/
def HIParamsWTensors.pyhash (_p : HIParamsWTensors) : Except PyError ℤ :=
  .error (.typeError "unhashable type: HIParamsWTensors")

/-!
## Helper lemmas
-/

/-- Closed form of `TDVP1SiteParameters.init`. -/
lemma tdvp1_init_eq (n m : ℤ) :
    TDVP1SiteParameters.init n m =
      if n ≤ 0 then .error (.valueError "number of Lanczos iterations must be positive!")
      else if m ≤ 0 then .error (.valueError "maximum bond dimension must be positive!")
      else .ok ⟨n, m⟩ := by
  simp only [TDVP1SiteParameters.init, positivity_test, Int.cast_nonpos]
  by_cases h1 : n ≤ 0 <;> by_cases h2 : m ≤ 0 <;>
    simp [h1, h2, bind, Except.bind, pure, Except.pure]

/-- Closed form of `TDVP2SiteParameters.init`. -/
lemma tdvp2_init_eq (n m : ℤ) (t : ℚ) :
    TDVP2SiteParameters.init n m t =
      if n ≤ 0 then .error (.valueError "number of Lanczos iterations must be positive!")
      else if m ≤ 0 then .error (.valueError "maximum bond dimension must be positive!")
      else if t ≤ 0 then .error (.valueError "relative SVD tolerance must be positive!")
      else .ok ⟨n, m, t⟩ := by
  simp only [TDVP2SiteParameters.init, positivity_test, Int.cast_nonpos]
  by_cases h1 : n ≤ 0 <;> by_cases h2 : m ≤ 0 <;> by_cases h3 : t ≤ 0 <;>
    simp [h1, h2, h3, bind, Except.bind, pure, Except.pure]

/-- Closed form of `TEBDParameters.init`. -/
lemma tebd_init_eq (m : ℤ) (t : ℚ) :
    TEBDParameters.init m t =
      if m ≤ 0 then .error (.valueError "maximum bond dimension must be positive!")
      else if t ≤ 0 then .error (.valueError "SVD relative tolerance must be positive!")
      else .ok ⟨m, t⟩ := by
  simp only [TEBDParameters.init, positivity_test, Int.cast_nonpos]
  by_cases h1 : m ≤ 0 <;> by_cases h2 : t ≤ 0 <;>
    simp [h1, h2, bind, Except.bind, pure, Except.pure]

/-- `TDVP1SiteParameters.init` succeeds exactly on positive arguments. -/
lemma tdvp1_init_ok_iff (n m : ℤ) (r : TDVP1SiteParameters) :
    TDVP1SiteParameters.init n m = .ok r ↔ 0 < n ∧ 0 < m ∧ r = ⟨n, m⟩ := by
  rw [tdvp1_init_eq]
  split_ifs with h1 h2 <;> constructor
  · intro h; exact absurd h (by simp)
  · rintro ⟨h, -, -⟩; omega
  · intro h; exact absurd h (by simp)
  · rintro ⟨-, h, -⟩; omega
  · intro h; cases h; exact ⟨by omega, by omega, rfl⟩
  · rintro ⟨-, -, rfl⟩; rfl

/-- `TDVP2SiteParameters.init` succeeds exactly on positive arguments. -/
lemma tdvp2_init_ok_iff (n m : ℤ) (t : ℚ) (r : TDVP2SiteParameters) :
    TDVP2SiteParameters.init n m t = .ok r ↔ 0 < n ∧ 0 < m ∧ 0 < t ∧ r = ⟨n, m, t⟩ := by
  rw [tdvp2_init_eq]
  split_ifs with h1 h2 h3 <;> constructor
  · intro h; exact absurd h (by simp)
  · rintro ⟨h, -⟩; omega
  · intro h; exact absurd h (by simp)
  · rintro ⟨-, h, -⟩; omega
  · intro h; exact absurd h (by simp)
  · rintro ⟨-, -, h, -⟩; exact absurd h (not_lt.mpr h3)
  · intro h; cases h; exact ⟨by omega, by omega, lt_of_not_le h3, rfl⟩
  · rintro ⟨-, -, -, rfl⟩; rfl

/-- `TEBDParameters.init` succeeds exactly on positive arguments. -/
lemma tebd_init_ok_iff (m : ℤ) (t : ℚ) (r : TEBDParameters) :
    TEBDParameters.init m t = .ok r ↔ 0 < m ∧ 0 < t ∧ r = ⟨m, t⟩ := by
  rw [tebd_init_eq]
  split_ifs with h1 h2 <;> constructor
  · intro h; exact absurd h (by simp)
  · rintro ⟨h, -⟩; omega
  · intro h; exact absurd h (by simp)
  · rintro ⟨-, h, -⟩; exact absurd h (not_lt.mpr h2)
  · intro h; cases h; exact ⟨by omega, lt_of_not_le h2, rfl⟩
  · rintro ⟨-, -, rfl⟩; rfl

/-!
## Claims
-/

/-- C1: in each of the three parameter constructors, a non-positive numeric
field makes construction fail with a `ValueError` whose message is exactly
the field's display name followed by `" must be positive!"`; the fields
are tested in declared order (the first non-positive field in that order
determines the message), and a successfully constructed record always has
all numeric fields strictly positive. -/
theorem c1_positivity_validation (n m : ℤ) (t : ℚ) (m2 : ℤ) (t2 : ℚ) :
    (n ≤ 0 → TDVP1SiteParameters.init n m =
      .error (.valueError "number of Lanczos iterations must be positive!")) ∧
    (0 < n → m ≤ 0 → TDVP1SiteParameters.init n m =
      .error (.valueError "maximum bond dimension must be positive!")) ∧
    (∀ r, TDVP1SiteParameters.init n m = .ok r →
      0 < r.numiter_lanczos ∧ 0 < r.max_bond_dimension) ∧
    (n ≤ 0 → TDVP2SiteParameters.init n m t =
      .error (.valueError "number of Lanczos iterations must be positive!")) ∧
    (0 < n → m ≤ 0 → TDVP2SiteParameters.init n m t =
      .error (.valueError "maximum bond dimension must be positive!")) ∧
    (0 < n → 0 < m → t ≤ 0 → TDVP2SiteParameters.init n m t =
      .error (.valueError "relative SVD tolerance must be positive!")) ∧
    (∀ r, TDVP2SiteParameters.init n m t = .ok r →
      0 < r.numiter_lanczos ∧ 0 < r.max_bond_dimension ∧ 0 < r.relative_svd_tolerance) ∧
    (m2 ≤ 0 → TEBDParameters.init m2 t2 =
      .error (.valueError "maximum bond dimension must be positive!")) ∧
    (0 < m2 → t2 ≤ 0 → TEBDParameters.init m2 t2 =
      .error (.valueError "SVD relative tolerance must be positive!")) ∧
    (∀ r, TEBDParameters.init m2 t2 = .ok r →
      0 < r.max_bond_dimension ∧ 0 < r.svd_relative_tolerance) := by
  refine ⟨?_, ?_, ?_, ?_, ?_, ?_, ?_, ?_, ?_, ?_⟩
  · intro h; rw [tdvp1_init_eq, if_pos h]
  · intro h1 h2; rw [tdvp1_init_eq, if_neg (by omega), if_pos h2]
  · intro r hr
    obtain ⟨hn, hm, rfl⟩ := (tdvp1_init_ok_iff n m r).mp hr
    exact ⟨hn, hm⟩
  · intro h; rw [tdvp2_init_eq, if_pos h]
  · intro h1 h2; rw [tdvp2_init_eq, if_neg (by omega), if_pos h2]
  · intro h1 h2 h3
    rw [tdvp2_init_eq, if_neg (by omega), if_neg (by omega), if_pos h3]
  · intro r hr
    obtain ⟨hn, hm, ht, rfl⟩ := (tdvp2_init_ok_iff n m t r).mp hr
    exact ⟨hn, hm, ht⟩
  · intro h; rw [tebd_init_eq, if_pos h]
  · intro h1 h2; rw [tebd_init_eq, if_neg (by omega), if_pos h2]
  · intro r hr
    obtain ⟨hm, ht, rfl⟩ := (tebd_init_ok_iff m2 t2 r).mp hr
    exact ⟨hm, ht⟩

/-- Witness for C1 at concrete inputs. -/
theorem c1_positivity_validation_witness :
    TDVP1SiteParameters.init 0 5 =
      .error (.valueError "number of Lanczos iterations must be positive!") ∧
    TDVP2SiteParameters.init 3 (-2) (1/2) =
      .error (.valueError "maximum bond dimension must be positive!") ∧
    TEBDParameters.init 4 0 =
      .error (.valueError "SVD relative tolerance must be positive!") := by
  refine ⟨?_, ?_, ?_⟩
  · obtain ⟨h1, -⟩ := c1_positivity_validation 0 5 (1/2) 4 1
    exact h1 (by norm_num)
  · obtain ⟨-, -, -, -, h5, -⟩ := c1_positivity_validation 3 (-2) (1/2) 4 1
    exact h5 (by norm_num) (by norm_num)
  · obtain ⟨-, -, -, -, -, -, -, -, h9, -⟩ := c1_positivity_validation 3 2 (1/2) 4 0
    exact h9 (by norm_num) le_rfl

/-- C2: for every set of supplied keyword fields, `generate_parameters`
with the `RUNGEKUTTA` mode fails with the `NotImplementedError` of the
source (so no record is constructed), and that condition is distinct from
the `ValueError` used for unknown modes. -/
theorem c2_rungekutta_not_implemented (kw : Kwargs) :
    generate_parameters (.member .RUNGEKUTTA) kw =
      .error (.notImplementedError "Runge-Kutta integration is not yet implemented.") ∧
    ∀ msg, (PyError.notImplementedError "Runge-Kutta integration is not yet implemented.") ≠
      PyError.valueError msg :=
  ⟨rfl, fun _ h => PyError.noConfusion h⟩

/-- Witness for C2 at a concrete keyword set. -/
theorem c2_rungekutta_not_implemented_witness :
    generate_parameters (.member .RUNGEKUTTA) [("max_bond_dimension", PyVal.int 5)] =
      .error (.notImplementedError "Runge-Kutta integration is not yet implemented.") ∧
    (PyError.notImplementedError "Runge-Kutta integration is not yet implemented.") ≠
      PyError.valueError "Invalid mode x." :=
  ⟨(c2_rungekutta_not_implemented [("max_bond_dimension", PyVal.int 5)]).1,
   (c2_rungekutta_not_implemented [("max_bond_dimension", PyVal.int 5)]).2 "Invalid mode x."⟩

/-- C3: for every `mode` value that is no member of the enumeration,
`generate_parameters` fails with a `ValueError` whose message contains the
display string of the offending value. -/
theorem c3_invalid_mode (r : String) (kw : Kwargs) :
    generate_parameters (.other r) kw =
      .error (.valueError ("Invalid mode " ++ r ++ ".")) ∧
    ∃ pre post, "Invalid mode " ++ r ++ "." = pre ++ r ++ post :=
  ⟨rfl, "Invalid mode ", ".", rfl⟩

/-- A `TDVP2SiteParameters(**kw)` call either raises a `TypeError`, or all
three declared keywords are bound with their hinted types and `__init__`
runs on them. -/
lemma tdvp2_call_shape (kw : Kwargs) :
    (∃ msg, TDVP2SiteParameters.call kw = .error (.typeError msg)) ∨
    (∃ n m t, getKw kw "numiter_lanczos" = some (.int n) ∧
      getKw kw "max_bond_dimension" = some (.int m) ∧
      getKw kw "relative_svd_tolerance" = some (.float t) ∧
      TDVP2SiteParameters.call kw = TDVP2SiteParameters.init n m t) := by
  unfold TDVP2SiteParameters.call bindIntArg bindFloatArg
  rcases h0 : kw.find? (fun q =>
      !(q.1 == "numiter_lanczos" || q.1 == "max_bond_dimension" ||
        q.1 == "relative_svd_tolerance")) with - | q
  · simp only [h0]
    rcases h1 : getKw kw "numiter_lanczos" with - | v1
    · simp only [h1]; exact Or.inl ⟨_, rfl⟩
    · rcases v1 with n | q1
      · simp only [h1]
        rcases h2 : getKw kw "max_bond_dimension" with - | v2
        · simp only [h2]; exact Or.inl ⟨_, rfl⟩
        · rcases v2 with m | q2
          · simp only [h2]
            rcases h3 : getKw kw "relative_svd_tolerance" with - | v3
            · simp only [h3]; exact Or.inl ⟨_, rfl⟩
            · rcases v3 with z3 | t
              · simp only [h3]; exact Or.inl ⟨_, rfl⟩
              · simp only [h3]
                exact Or.inr ⟨n, m, t, rfl, rfl, rfl, rfl⟩
          · simp only [h2]; exact Or.inl ⟨_, rfl⟩
      · simp only [h1]; exact Or.inl ⟨_, rfl⟩
  · simp only [h0]; exact Or.inl ⟨_, rfl⟩

/-- C4 counterexample: the keyword names claimed for the two-site record
(`lanczos_iterations`, `svd_relative_tolerance`) are not the declared
parameter names of `TDVP2SiteParameters.__init__`, so the claimed call
with positive values raises a `TypeError` instead of constructing a
record. -/
theorem c4_counterexample :
    generate_parameters (ModeArg.member MPSIntegrationMode.TDVP2SITE)
      [("lanczos_iterations", PyVal.int 2), ("max_bond_dimension", PyVal.int 3),
       ("svd_relative_tolerance", PyVal.float (1/2))] =
      .error (.typeError "unexpected keyword argument lanczos_iterations") := by
  rfl

/-- C4 amended: the two-site TDVP record's keyword fields are exactly
`numiter_lanczos`, `max_bond_dimension` and `relative_svd_tolerance`;
`generate_parameters(TDVP2SITE)` with those keywords and positive values
constructs the record, while any extra or any missing declared keyword
makes the call fail with a `TypeError`. -/
theorem c4_amended_fields (k m : ℤ) (t : ℚ) (hk : 0 < k) (hm : 0 < m) (ht : 0 < t) :
    generate_parameters (.member .TDVP2SITE)
      [("numiter_lanczos", PyVal.int k), ("max_bond_dimension", PyVal.int m),
       ("relative_svd_tolerance", PyVal.float t)] =
      .ok (.tdvp2 ⟨k, m, t⟩) ∧
    TDVP2SiteParameters.slots =
      ["numiter_lanczos", "max_bond_dimension", "relative_svd_tolerance"] ∧
    (∀ kw : Kwargs, (∃ p ∈ kw, p.1 ∉ TDVP2SiteParameters.slots) →
      ∃ msg, generate_parameters (.member .TDVP2SITE) kw = .error (.typeError msg)) ∧
    (∀ kw : Kwargs, (∃ name ∈ TDVP2SiteParameters.slots, getKw kw name = none) →
      ∃ msg, generate_parameters (.member .TDVP2SITE) kw = .error (.typeError msg)) := by
  refine ⟨?_, rfl, ?_, ?_⟩
  · have h : generate_parameters (.member .TDVP2SITE)
        [("numiter_lanczos", PyVal.int k), ("max_bond_dimension", PyVal.int m),
         ("relative_svd_tolerance", PyVal.float t)] =
        (TDVP2SiteParameters.init k m t).map GeneratedParams.tdvp2 := rfl
    rw [h, tdvp2_init_eq, if_neg (not_le.mpr hk), if_neg (not_le.mpr hm),
      if_neg (not_le.mpr ht)]
    rfl
  · rintro kw ⟨p, hmem, hnot⟩
    simp only [TDVP2SiteParameters.slots, List.mem_cons, List.not_mem_nil, or_false,
      not_or] at hnot
    obtain ⟨hn1, hn2, hn3⟩ := hnot
    rcases hq : kw.find? (fun q =>
        !(q.1 == "numiter_lanczos" || q.1 == "max_bond_dimension" ||
          q.1 == "relative_svd_tolerance")) with - | q
    · exfalso
      rw [List.find?_eq_none] at hq
      have := hq p hmem
      simp [beq_eq_false_iff_ne.mpr hn1, beq_eq_false_iff_ne.mpr hn2,
        beq_eq_false_iff_ne.mpr hn3] at this
    · refine ⟨"unexpected keyword argument " ++ q.1, ?_⟩
      show (TDVP2SiteParameters.call kw).map GeneratedParams.tdvp2 = _
      unfold TDVP2SiteParameters.call
      simp only [hq]
      rfl
  · rintro kw ⟨name, hname, hmiss⟩
    rcases tdvp2_call_shape kw with ⟨msg, hc⟩ | ⟨n, m', t', hg1, hg2, hg3, -⟩
    · refine ⟨msg, ?_⟩
      show (TDVP2SiteParameters.call kw).map GeneratedParams.tdvp2 = _
      rw [hc]
      rfl
    · exfalso
      simp only [TDVP2SiteParameters.slots, List.mem_cons, List.not_mem_nil,
        or_false] at hname
      rcases hname with rfl | rfl | rfl
      · rw [hg1] at hmiss; cases hmiss
      · rw [hg2] at hmiss; cases hmiss
      · rw [hg3] at hmiss; cases hmiss

/-- Witness for the amended C4 at concrete inputs. -/
theorem c4_amended_fields_witness :
    generate_parameters (.member .TDVP2SITE)
      [("numiter_lanczos", PyVal.int 10), ("max_bond_dimension", PyVal.int 20),
       ("relative_svd_tolerance", PyVal.float (1/100))] =
      .ok (.tdvp2 ⟨10, 20, 1/100⟩) :=
  (c4_amended_fields 10 20 (1/100) (by norm_num) (by norm_num) (by norm_num)).1

/-- C5: for every dimension `d ≥ 1`, `creation_annihilation_operator d`
returns two `d × d` matrices that are mutual transposes; the creation
matrix carries `sqrt(i + 1) > 0` exactly at the positions `(i, i + 1)` and
is zero elsewhere, the annihilation matrix carries `sqrt(i + 1) > 0`
exactly at `(i + 1, i)`; for `d = 1` both matrices are all-zero. -/
theorem c5_creation_annihilation (d : ℤ) (hd : 1 ≤ d) :
    ∃ p, creation_annihilation_operator d = .ok p ∧
      p.1.transpose = p.2 ∧
      (∀ i j : Fin d.toNat, (j : ℕ) = (i : ℕ) + 1 →
        p.1 i j = Real.sqrt ((i : ℕ) + 1) ∧ 0 < p.1 i j) ∧
      (∀ i j : Fin d.toNat, (j : ℕ) ≠ (i : ℕ) + 1 → p.1 i j = 0) ∧
      (∀ i j : Fin d.toNat, (i : ℕ) = (j : ℕ) + 1 →
        p.2 i j = Real.sqrt ((j : ℕ) + 1) ∧ 0 < p.2 i j) ∧
      (∀ i j : Fin d.toNat, (i : ℕ) ≠ (j : ℕ) + 1 → p.2 i j = 0) ∧
      (d = 1 → ∀ i j : Fin d.toNat, p.1 i j = 0 ∧ p.2 i j = 0) := by
  refine ⟨(creation_matrix d.toNat, annihilation_matrix d.toNat), ?_, ?_, ?_, ?_, ?_, ?_, ?_⟩
  · unfold creation_annihilation_operator
    rw [if_neg (by omega)]
  · ext i j
    simp only [Matrix.transpose_apply, creation_matrix, annihilation_matrix, Matrix.of_apply]
  · intro i j h
    constructor
    · simp [creation_matrix, h]
    · simp only [creation_matrix, Matrix.of_apply, if_pos h]
      exact Real.sqrt_pos.mpr (by positivity)
  · intro i j h
    simp [creation_matrix, h]
  · intro i j h
    constructor
    · simp [annihilation_matrix, h]
    · simp only [annihilation_matrix, Matrix.of_apply, if_pos h]
      exact Real.sqrt_pos.mpr (by positivity)
  · intro i j h
    simp [annihilation_matrix, h]
  · rintro rfl i j
    have hi : (i : ℕ) < 1 := i.isLt
    have hj : (j : ℕ) < 1 := j.isLt
    constructor
    · simp only [creation_matrix, Matrix.of_apply]
      rw [if_neg (by omega)]
    · simp only [annihilation_matrix, Matrix.of_apply]
      rw [if_neg (by omega)]

/-- Witness for C5 at dimension 3. -/
theorem c5_creation_annihilation_witness :
    (1 : ℤ) ≤ 3 ∧
    ∃ p, creation_annihilation_operator 3 = .ok p ∧ p.1.transpose = p.2 :=
  ⟨by norm_num, by
    obtain ⟨p, h1, h2, -⟩ := c5_creation_annihilation 3 (by norm_num)
    exact ⟨p, h1, h2⟩⟩

/-- C6 counterexample: the claim asserts failure for every
`dimension ≤ 0`, but at dimension `0` the code succeeds: `np.zeros((0, 0))`
builds an empty matrix, the fill loop over `range(-1)` is empty, and the
pair of `0 × 0` matrices is returned. -/
theorem c6_counterexample :
    creation_annihilation_operator 0 = .ok (creation_matrix 0, annihilation_matrix 0) := by
  rfl

/-- C6 amended: for every strictly negative dimension,
`creation_annihilation_operator` fails with the `ValueError` that
`np.zeros` raises for negative dimensions; dimension `0` instead succeeds
with two `0 × 0` matrices. -/
theorem c6_negative_dimension (d : ℤ) (hd : d < 0) :
    creation_annihilation_operator d =
      .error (.valueError "negative dimensions are not allowed") := by
  unfold creation_annihilation_operator
  rw [if_pos hd]

/-- Witness for the amended C6 at dimension -1. -/
theorem c6_negative_dimension_witness :
    (-1 : ℤ) < 0 ∧
    creation_annihilation_operator (-1) =
      .error (.valueError "negative dimensions are not allowed") :=
  ⟨by norm_num, c6_negative_dimension (-1) (by norm_num)⟩

/-- C7: `pauli_operators` (a pure function of no arguments, hence the
same triple on every invocation) returns 2×2 complex matrices satisfying
the standard Pauli algebra: each one squares to the identity and
`sigma_x * sigma_y = i • sigma_z`. -/
theorem c7_pauli_algebra :
    pauli_operators.1 * pauli_operators.1 = 1 ∧
    pauli_operators.2.1 * pauli_operators.2.1 = 1 ∧
    pauli_operators.2.2 * pauli_operators.2.2 = 1 ∧
    pauli_operators.1 * pauli_operators.2.1 = Complex.I • pauli_operators.2.2 := by
  refine ⟨?_, ?_, ?_, ?_⟩ <;>
  · ext i j
    fin_cases i <;> fin_cases j <;>
      simp [pauli_operators, sigma_x, sigma_y, sigma_z, Matrix.mul_apply,
        Fin.sum_univ_two, Matrix.one_apply, Complex.I_mul_I]

/-- C8: two records of the same mode constructed from identical field
values are equal and have equal value-based keys (the hash input of the
external `binfootprint` base, modelled from the spec), and two records
constructed from field values differing anywhere are unequal. -/
theorem c8_value_semantics :
    (∀ (a b : ℤ) (p q : TDVP1SiteParameters),
      TDVP1SiteParameters.init a b = .ok p → TDVP1SiteParameters.init a b = .ok q →
      p = q ∧ p.bfKey = q.bfKey) ∧
    (∀ (a b a' b' : ℤ) (p q : TDVP1SiteParameters),
      TDVP1SiteParameters.init a b = .ok p → TDVP1SiteParameters.init a' b' = .ok q →
      a ≠ a' ∨ b ≠ b' → p ≠ q) ∧
    (∀ (a b : ℤ) (t : ℚ) (p q : TDVP2SiteParameters),
      TDVP2SiteParameters.init a b t = .ok p → TDVP2SiteParameters.init a b t = .ok q →
      p = q ∧ p.bfKey = q.bfKey) ∧
    (∀ (a b a' b' : ℤ) (t t' : ℚ) (p q : TDVP2SiteParameters),
      TDVP2SiteParameters.init a b t = .ok p → TDVP2SiteParameters.init a' b' t' = .ok q →
      a ≠ a' ∨ b ≠ b' ∨ t ≠ t' → p ≠ q) ∧
    (∀ (b : ℤ) (t : ℚ) (p q : TEBDParameters),
      TEBDParameters.init b t = .ok p → TEBDParameters.init b t = .ok q →
      p = q ∧ p.bfKey = q.bfKey) ∧
    (∀ (b b' : ℤ) (t t' : ℚ) (p q : TEBDParameters),
      TEBDParameters.init b t = .ok p → TEBDParameters.init b' t' = .ok q →
      b ≠ b' ∨ t ≠ t' → p ≠ q) := by
  refine ⟨?_, ?_, ?_, ?_, ?_, ?_⟩
  · intro a b p q hp hq
    have h := hp.symm.trans hq
    injection h with h
    subst h
    exact ⟨rfl, rfl⟩
  · intro a b a' b' p q hp hq hne
    obtain ⟨-, -, rfl⟩ := (tdvp1_init_ok_iff a b p).mp hp
    obtain ⟨-, -, rfl⟩ := (tdvp1_init_ok_iff a' b' q).mp hq
    rcases hne with hne | hne
    · exact fun heq => hne (congrArg TDVP1SiteParameters.numiter_lanczos heq)
    · exact fun heq => hne (congrArg TDVP1SiteParameters.max_bond_dimension heq)
  · intro a b t p q hp hq
    have h := hp.symm.trans hq
    injection h with h
    subst h
    exact ⟨rfl, rfl⟩
  · intro a b a' b' t t' p q hp hq hne
    obtain ⟨-, -, -, rfl⟩ := (tdvp2_init_ok_iff a b t p).mp hp
    obtain ⟨-, -, -, rfl⟩ := (tdvp2_init_ok_iff a' b' t' q).mp hq
    rcases hne with hne | hne | hne
    · exact fun heq => hne (congrArg TDVP2SiteParameters.numiter_lanczos heq)
    · exact fun heq => hne (congrArg TDVP2SiteParameters.max_bond_dimension heq)
    · exact fun heq => hne (congrArg TDVP2SiteParameters.relative_svd_tolerance heq)
  · intro b t p q hp hq
    have h := hp.symm.trans hq
    injection h with h
    subst h
    exact ⟨rfl, rfl⟩
  · intro b b' t t' p q hp hq hne
    obtain ⟨-, -, rfl⟩ := (tebd_init_ok_iff b t p).mp hp
    obtain ⟨-, -, rfl⟩ := (tebd_init_ok_iff b' t' q).mp hq
    rcases hne with hne | hne
    · exact fun heq => hne (congrArg TEBDParameters.max_bond_dimension heq)
    · exact fun heq => hne (congrArg TEBDParameters.svd_relative_tolerance heq)

/-- Witness for C8 at concrete constructions. -/
theorem c8_value_semantics_witness :
    TDVP1SiteParameters.init 2 3 = .ok ⟨2, 3⟩ ∧
    ((⟨2, 3⟩ : TDVP1SiteParameters) = ⟨2, 3⟩ ∧
      TDVP1SiteParameters.bfKey ⟨2, 3⟩ = TDVP1SiteParameters.bfKey ⟨2, 3⟩) := by
  have hinit : TDVP1SiteParameters.init 2 3 = .ok ⟨2, 3⟩ := by
    rw [tdvp1_init_eq, if_neg (by norm_num), if_neg (by norm_num)]
  exact ⟨hinit, c8_value_semantics.1 2 3 ⟨2, 3⟩ ⟨2, 3⟩ hinit hinit⟩

/-- C9: the records are sealed: for every attribute name outside the
record's `__slots__` list, setting that attribute on a constructed record
raises an `AttributeError`, for each of the three record types. -/
theorem c9_sealed_records (name : String) :
    (name ∉ TDVP1SiteParameters.slots →
      TDVP1SiteParameters.setattr name =
        .error (.attributeError ("TDVP1SiteParameters object has no attribute " ++ name))) ∧
    (name ∉ TDVP2SiteParameters.slots →
      TDVP2SiteParameters.setattr name =
        .error (.attributeError ("TDVP2SiteParameters object has no attribute " ++ name))) ∧
    (name ∉ TEBDParameters.slots →
      TEBDParameters.setattr name =
        .error (.attributeError ("TEBDParameters object has no attribute " ++ name))) := by
  refine ⟨?_, ?_, ?_⟩ <;> intro h
  · unfold TDVP1SiteParameters.setattr
    rw [if_neg (by simpa using h)]
  · unfold TDVP2SiteParameters.setattr
    rw [if_neg (by simpa using h)]
  · unfold TEBDParameters.setattr
    rw [if_neg (by simpa using h)]

/-- Witness for C9 at a concrete undeclared attribute name. -/
theorem c9_sealed_records_witness :
    "color" ∉ TDVP1SiteParameters.slots ∧
    TDVP1SiteParameters.setattr "color" =
      .error (.attributeError ("TDVP1SiteParameters object has no attribute " ++ "color")) :=
  ⟨by decide, (c9_sealed_records "color").1 (by decide)⟩

/-- C10 counterexample: `HIParamsWTensors` instances are not hashable —
`@dataclass` with its defaults `eq=True, frozen=False` sets `__hash__` to
`None` — so `hash()` on a concrete instance raises a `TypeError` instead
of returning a value derived from the fields. -/
theorem c10_counterexample :
    HIParamsWTensors.pyhash ⟨⟨[]⟩, GeneratedParams.tdvp1 ⟨1, 1⟩⟩ =
      .error (.typeError "unhashable type: HIParamsWTensors") := rfl

/-- C10 amended: `HIParamsWTensors` extends the base container with the
single field `TensP`, rejects a non-parameter `TensP` value with a
`TypeError` at construction, and its equality is derived from all fields;
its instances are however not hashable (the mutable dataclass disables
`__hash__`), so `hash()` raises a `TypeError`. -/
theorem c10_composite_params (base : HIParams) (p : GeneratedParams) (r : String)
    (h1 h2 : HIParamsWTensors) :
    HIParamsWTensors.init base (.param p) = .ok ⟨base, p⟩ ∧
    HIParamsWTensors.slots = ["TensP"] ∧
    (∃ msg, HIParamsWTensors.init base (.nonparam r) = .error (.typeError msg)) ∧
    (h1 = h2 ↔ h1.toHIParams = h2.toHIParams ∧ h1.TensP = h2.TensP) ∧
    (∃ msg, HIParamsWTensors.pyhash h1 = .error (.typeError msg)) := by
  refine ⟨rfl, rfl, ⟨_, rfl⟩, ?_, ⟨_, rfl⟩⟩
  cases h1
  cases h2
  simp

/-- Witness for the amended C10 at a concrete composite. -/
theorem c10_composite_params_witness :
    HIParamsWTensors.init ⟨[]⟩ (.param (.tdvp1 ⟨1, 2⟩)) =
      .ok ⟨⟨[]⟩, GeneratedParams.tdvp1 ⟨1, 2⟩⟩ ∧
    ∃ msg, HIParamsWTensors.pyhash ⟨⟨[]⟩, GeneratedParams.tdvp1 ⟨1, 2⟩⟩ =
      .error (.typeError msg) :=
  ⟨(c10_composite_params ⟨[]⟩ (.tdvp1 ⟨1, 2⟩) "x"
      ⟨⟨[]⟩, GeneratedParams.tdvp1 ⟨1, 2⟩⟩ ⟨⟨[]⟩, GeneratedParams.tdvp1 ⟨1, 2⟩⟩).1,
   (c10_composite_params ⟨[]⟩ (.tdvp1 ⟨1, 2⟩) "x"
      ⟨⟨[]⟩, GeneratedParams.tdvp1 ⟨1, 2⟩⟩ ⟨⟨[]⟩, GeneratedParams.tdvp1 ⟨1, 2⟩⟩).2.2.2.2⟩
